import Mathlib

/-!
Shallow embedding of the LSF agent core (src/main.rs): status-code
translation, host-identity resolution, report building, aggregation and
JSON serialization, as performed by the `run` function of the program.
-/

namespace LsfAgent

/-! ### Machine-integer helper -/

/-- Interpretation of a bit pattern as a signed 32-bit value, as Rust does
for an overflowing `i32` literal such as `0x80000000`. -/
def toI32 (n : Nat) : Int :=
  if n % 2 ^ 32 < 2 ^ 31 then (n % 2 ^ 32 : Int) else (n % 2 ^ 32 : Int) - 2 ^ 32

/-! ### LSF status flags (constants from src/main.rs) -/

def LIM_OK : Int := 0x00000000
def LIM_UNAVAIL : Int := 0x00010000
def LIM_LOCKEDU : Int := 0x00020000
def LIM_LOCKEDW : Int := 0x00040000
def LIM_BUSY : Int := 0x00080000
def LIM_RESDOWN : Int := 0x00100000
def LIM_UNLICENSED : Int := 0x00200000
def LIM_SBDDOWN : Int := 0x00400000
def LIM_LOCKEDM : Int := 0x00800000
def LIM_PEMDOWN : Int := 0x01000000
def LIM_EXPIRED : Int := 0x02000000
def LIM_RLAUP : Int := 0x04000000

/-- In the source this constant is written as the literal `0x80000000` with
`#[allow(overflowing_literals)]`, so it wraps to the signed 32-bit value. -/
def LIM_LOCKEDU_RMS : Int := toI32 0x80000000

def ALL_CLUSTERS : Int := 0x80

/-! ### Verdict values and exit codes (constants from src/main.rs) -/

def PASSED : Int := 0
def FAILED : Int := 2

def NORMAL : Int := 0
def ERROR : Int := 127

/-! ### Status Code Translator (`to_status_str` in src/main.rs) -/

def to_status_str (status : Int) : String :=
  if status = LIM_OK then "LIM_OK"
  else if status = LIM_UNAVAIL then "LIM_UNAVAIL"
  else if status = LIM_LOCKEDU then "LIM_LOCKEDU"
  else if status = LIM_LOCKEDW then "LIM_LOCKEDW"
  else if status = LIM_BUSY then "LIM_BUSY"
  else if status = LIM_RESDOWN then "LIM_RESDOWN"
  else if status = LIM_UNLICENSED then "LIM_UNLICENSED"
  else if status = LIM_SBDDOWN then "LIM_SBDDOWN"
  else if status = LIM_LOCKEDM then "LIM_LOCKEDM"
  else if status = LIM_PEMDOWN then "LIM_PEMDOWN"
  else if status = LIM_EXPIRED then "LIM_EXPIRED"
  else if status = LIM_RLAUP then "LIM_RLAUP"
  else if status = LIM_LOCKEDU_RMS then "LIM_LOCKEDU_RMS"
  else "UNKNOWN"

/-! ### Data model (`common` module in src/main.rs) -/

structure StorageInfo where
  used : Nat
  total : Nat
deriving DecidableEq

structure StatusStorageInfo where
  name : String
  status : Int
  storage : Option StorageInfo
  critical_group_name : Option String
  remarks : Option String
deriving DecidableEq

/-- Configuration structure (`Config` in src/main.rs). The field `prefixStr`
models the `prefix` field; `name_mapping` models the `HashMap` as an
association list with unique keys (looked up with `List.lookup`). -/
structure Config where
  prefixStr : String
  name_mapping : List (String × String)
  critical_group_name : String
deriving DecidableEq

/-- Raw per-host data returned by the data source (struct `hostLoad`):
the fixed-size `host_name` byte buffer (modelled as the list of its byte
values) and the dereferenced `status` bitmask. The load-metric field is
unused by the program and omitted. -/
structure HostLoad where
  host_name : List Nat
  status : Int
deriving DecidableEq

/-! ### CStr handling: bytes up to the first nul, UTF-8 decoding, debug
representation. Models `CStr::from_ptr`, `CStr::to_str` and the `{:?}`
formatting of a `CStr` used in the fallback path. -/

/-- Bytes of the C string: everything before the first zero byte
(`CStr::from_ptr`). -/
def cstrBytes (buf : List Nat) : List Nat :=
  buf.takeWhile (fun b => b != 0)

/-- UTF-8 decoding of a byte sequence into characters, following the
standard UTF-8 validity rules enforced by `str::from_utf8` (rejecting
overlong forms, surrogates and values above 0x10FFFF). -/
def utf8DecodeAux : List Nat → Option (List Char)
  | [] => some []
  | b0 :: rest =>
    if b0 ≤ 0x7F then
      (utf8DecodeAux rest).map (fun cs => Char.ofNat b0 :: cs)
    else if 0xC2 ≤ b0 ∧ b0 ≤ 0xDF then
      match rest with
      | b1 :: rest1 =>
        if 0x80 ≤ b1 ∧ b1 ≤ 0xBF then
          (utf8DecodeAux rest1).map
            (fun cs => Char.ofNat ((b0 - 0xC0) * 0x40 + (b1 - 0x80)) :: cs)
        else none
      | [] => none
    else if 0xE0 ≤ b0 ∧ b0 ≤ 0xEF then
      match rest with
      | b1 :: b2 :: rest2 =>
        if ((b0 = 0xE0 ∧ 0xA0 ≤ b1 ∧ b1 ≤ 0xBF) ∨
            (0xE1 ≤ b0 ∧ b0 ≤ 0xEC ∧ 0x80 ≤ b1 ∧ b1 ≤ 0xBF) ∨
            (b0 = 0xED ∧ 0x80 ≤ b1 ∧ b1 ≤ 0x9F) ∨
            (0xEE ≤ b0 ∧ b0 ≤ 0xEF ∧ 0x80 ≤ b1 ∧ b1 ≤ 0xBF)) ∧
           (0x80 ≤ b2 ∧ b2 ≤ 0xBF) then
          (utf8DecodeAux rest2).map
            (fun cs =>
              Char.ofNat ((b0 - 0xE0) * 0x1000 + (b1 - 0x80) * 0x40 + (b2 - 0x80)) :: cs)
        else none
      | _ => none
    else if 0xF0 ≤ b0 ∧ b0 ≤ 0xF4 then
      match rest with
      | b1 :: b2 :: b3 :: rest3 =>
        if ((b0 = 0xF0 ∧ 0x90 ≤ b1 ∧ b1 ≤ 0xBF) ∨
            (0xF1 ≤ b0 ∧ b0 ≤ 0xF3 ∧ 0x80 ≤ b1 ∧ b1 ≤ 0xBF) ∨
            (b0 = 0xF4 ∧ 0x80 ≤ b1 ∧ b1 ≤ 0x8F)) ∧
           (0x80 ≤ b2 ∧ b2 ≤ 0xBF) ∧ (0x80 ≤ b3 ∧ b3 ≤ 0xBF) then
          (utf8DecodeAux rest3).map
            (fun cs =>
              Char.ofNat ((b0 - 0xF0) * 0x40000 + (b1 - 0x80) * 0x1000 +
                (b2 - 0x80) * 0x40 + (b3 - 0x80)) :: cs)
        else none
      | _ => none
    else none

/-- Interpretation of C-string bytes as text (`CStr::to_str`). -/
def utf8Decode (bs : List Nat) : Option String :=
  (utf8DecodeAux bs).map (fun cs => String.mk cs)

/-- Hexadecimal digit character, lowercase. -/
def hexDigit (n : Nat) : Char :=
  if n < 10 then Char.ofNat (48 + n) else Char.ofNat (87 + n)

/-- Two lowercase hexadecimal digits of a byte. -/
def hexByte (b : Nat) : String :=
  String.mk [hexDigit (b / 16), hexDigit (b % 16)]

/-- Byte escaping used by the Debug formatting of a `CStr`
(`core::ascii::escape_default`). -/
def escapeDefault (b : Nat) : String :=
  if b = 9 then "\\t"
  else if b = 13 then "\\r"
  else if b = 10 then "\\n"
  else if b = 92 then "\\\\"
  else if b = 39 then "\\\x27"
  else if b = 34 then "\\\""
  else if 32 ≤ b ∧ b ≤ 126 then String.mk [Char.ofNat b]
  else "\\x" ++ hexByte b

/-- Debug representation of the C string (`format!` with the debug
specifier on a `CStr`): the escaped bytes between double quotes. -/
def cstrDebugRepr (bs : List Nat) : String :=
  "\"" ++ String.join (bs.map escapeDefault) ++ "\""

/-! ### Report Builder (the closure inside `run` in src/main.rs) -/

/-- Verdict derivation inside the per-host closure of `run`:
`if status == LIM_OK { PASSED } else { FAILED }`. -/
def conv_status (status : Int) : Int :=
  if status = LIM_OK then PASSED else FAILED

/-- Construction of one `StatusStorageInfo` from one `hostLoad` entry,
as done by the closure mapped over the host array in `run`. -/
def buildRecord (config : Config) (host_load : HostLoad) : StatusStorageInfo :=
  let status := host_load.status
  let status_str := to_status_str status
  let host_name_bytes := cstrBytes host_load.host_name
  let host_name := utf8Decode host_name_bytes
  let conv := conv_status status
  let critical_group_name := config.critical_group_name
  match host_name with
  | some host_name =>
    let mapped_host_name :=
      match List.lookup host_name config.name_mapping with
      | some mapped_host_name => mapped_host_name
      | none => host_name
    { name := config.prefixStr ++ mapped_host_name
      status := conv
      storage := none
      critical_group_name := some critical_group_name
      remarks := some ("Status code: " ++ toString status ++ " (" ++ status_str ++ ")") }
  | none =>
    { name := config.prefixStr ++ cstrDebugRepr host_name_bytes
      status := conv
      storage := none
      critical_group_name := some critical_group_name
      remarks := some ("Status code: " ++ toString status ++ " (" ++ status_str ++ ")") }

/-- The synthetic record emitted when the data source returns no hosts. -/
def synthRecord (config : Config) : StatusStorageInfo :=
  { name := config.prefixStr ++ "*"
    status := FAILED
    storage := none
    critical_group_name := some config.critical_group_name
    remarks := some "Unable to connect any of the LSF nodes" }

/-- The `status_storage_infos` value computed in `run`: one record per
host when `numhosts > 0`, else the single synthetic record. -/
def buildReport (config : Config) (numhosts : Int) (host_load_vals : List HostLoad) :
    List StatusStorageInfo :=
  if numhosts > 0 then host_load_vals.map (buildRecord config)
  else [synthRecord config]

/-! ### Aggregator and exit code (`run` in src/main.rs) -/

/-- The `all_passed` value in `run`. -/
def all_passed (infos : List StatusStorageInfo) : Bool :=
  infos.all (fun info => info.status == PASSED)

/-- The `exit_code` value in `run`. -/
def exit_code (infos : List StatusStorageInfo) : Int :=
  match all_passed infos with
  | true => NORMAL
  | false => ERROR

/-! ### Serializer (serde_json on the `common` structures) -/

/-- JSON string-character escaping as performed by serde_json: quote and
backslash escaped, the short control escapes, other control characters as
a lowercase u-escape, everything else verbatim. -/
def jsonEscapeChar (c : Char) : String :=
  if c = '"' then "\\\""
  else if c = '\\' then "\\\\"
  else if c.toNat = 8 then "\\b"
  else if c.toNat = 9 then "\\t"
  else if c.toNat = 10 then "\\n"
  else if c.toNat = 12 then "\\f"
  else if c.toNat = 13 then "\\r"
  else if c.toNat < 32 then "\\u00" ++ hexByte c.toNat
  else String.mk [c]

/-- JSON rendering of a string value. -/
def jsonString (s : String) : String :=
  "\"" ++ String.join (s.data.map jsonEscapeChar) ++ "\""

/-- JSON rendering of a `StorageInfo` value (camelCase field names). -/
def serializeStorage (s : StorageInfo) : String :=
  "\x7b\"used\":" ++ toString s.used ++ ",\"total\":" ++ toString s.total ++ "\x7d"

/-- JSON rendering of one `StatusStorageInfo`, following the serde derive
on the structure: fields in declaration order, camelCase names, and every
`Option` field skipped entirely when it is `none`
(`skip_serializing_if = Option::is_none`). -/
def serializeRecord (info : StatusStorageInfo) : String :=
  "\x7b\"name\":" ++ jsonString info.name ++
  ",\"status\":" ++ toString info.status ++
  (match info.storage with
   | some s => ",\"storage\":" ++ serializeStorage s
   | none => "") ++
  (match info.critical_group_name with
   | some s => ",\"criticalGroupName\":" ++ jsonString s
   | none => "") ++
  (match info.remarks with
   | some s => ",\"remarks\":" ++ jsonString s
   | none => "") ++
  "\x7d"

/-- JSON rendering of the full record list, as printed by `run`. -/
def serializeReport (infos : List StatusStorageInfo) : String :=
  "[" ++ String.intercalate "," (infos.map serializeRecord) ++ "]"

/-! ### Substring containment, used to state the remarks invariant -/

/-- The characters of `sub` occur contiguously inside `s`. -/
def containsStr (s sub : String) : Prop :=
  sub.data <:+: s.data

instance (s sub : String) : Decidable (containsStr s sub) := by
  unfold containsStr; infer_instance

/-! ### Helper lemmas about the builder -/

lemma buildRecord_status (config : Config) (hl : HostLoad) :
    (buildRecord config hl).status = conv_status hl.status := by
  unfold buildRecord
  dsimp only
  cases hdec : utf8Decode (cstrBytes hl.host_name) <;> rfl

lemma buildRecord_storage (config : Config) (hl : HostLoad) :
    (buildRecord config hl).storage = none := by
  unfold buildRecord
  dsimp only
  cases hdec : utf8Decode (cstrBytes hl.host_name) <;> rfl

lemma buildRecord_critical_group (config : Config) (hl : HostLoad) :
    (buildRecord config hl).critical_group_name = some config.critical_group_name := by
  unfold buildRecord
  dsimp only
  cases hdec : utf8Decode (cstrBytes hl.host_name) <;> rfl

lemma buildRecord_remarks (config : Config) (hl : HostLoad) :
    (buildRecord config hl).remarks =
      some ("Status code: " ++ toString hl.status ++ " (" ++ to_status_str hl.status ++ ")") := by
  unfold buildRecord
  dsimp only
  cases hdec : utf8Decode (cstrBytes hl.host_name) <;> rfl

/-! ### Claim theorems -/

/-- C1: whenever the data source reports `numhosts <= 0`, the report is
exactly one synthetic record: name is the configured prefix followed by
a star, status is FAILED (2), the critical-group-name is the configured
value, and the remarks is the fixed unreachable message; no other record
is produced. -/
theorem report_empty_synthetic (config : Config) (numhosts : Int)
    (hosts : List HostLoad) (h : numhosts ≤ 0) :
    buildReport config numhosts hosts =
      [{ name := config.prefixStr ++ "*", status := FAILED, storage := none,
         critical_group_name := some config.critical_group_name,
         remarks := some "Unable to connect any of the LSF nodes" }] := by
  unfold buildReport synthRecord
  rw [if_neg (by omega)]

/-- Witness for C1 at a concrete configuration and `numhosts = 0`. -/
theorem report_empty_synthetic_witness :
    buildReport ⟨"mon.", [], "grpA"⟩ 0 [] =
      [⟨"mon.*", 2, none, some "grpA", some "Unable to connect any of the LSF nodes"⟩] :=
  (report_empty_synthetic ⟨"mon.", [], "grpA"⟩ 0 [] (by decide)).trans (by decide)

/-- C3: the verdict is PASSED (0) exactly when the status code equals
LIM_OK, FAILED (2) for every other code, and nothing else; and the
status stored in every built record is exactly this verdict. -/
theorem verdict_dichotomy (s : Int) :
    (conv_status s = PASSED ↔ s = LIM_OK) ∧
    (s ≠ LIM_OK → conv_status s = FAILED) ∧
    (conv_status s = PASSED ∨ conv_status s = FAILED) ∧
    (∀ (config : Config) (hl : HostLoad),
      (buildRecord config hl).status = conv_status hl.status) := by
  refine ⟨?_, ?_, ?_, fun config hl => buildRecord_status config hl⟩
  · unfold conv_status
    split_ifs with h
    · exact ⟨fun _ => h, fun _ => rfl⟩
    · exact ⟨fun hp => absurd hp (by decide), fun he => absurd he h⟩
  · intro h
    unfold conv_status
    rw [if_neg h]
  · unfold conv_status
    split_ifs <;> [left; right] <;> rfl

/-- Witness for C3 at the concrete codes 0 and LIM_BUSY. -/
theorem verdict_dichotomy_witness :
    conv_status 0 = 0 ∧ conv_status 524288 = 2 :=
  ⟨(verdict_dichotomy 0).1.mpr rfl, (verdict_dichotomy 524288).2.1 (by decide)⟩

/-- C8: when `numhosts > 0`, the report is the input entries mapped one
to one (in order, neither sorted, filtered nor duplicated) through the
per-entry record construction. -/
theorem report_one_per_entry (config : Config) (numhosts : Int)
    (hosts : List HostLoad) (h : 0 < numhosts) :
    buildReport config numhosts hosts = hosts.map (buildRecord config) ∧
    (buildReport config numhosts hosts).length = hosts.length := by
  unfold buildReport
  rw [if_pos h]
  exact ⟨rfl, List.length_map _ _⟩

/-- Witness for C8 on a two-host input. -/
theorem report_one_per_entry_witness :
    buildReport ⟨"p.", [], "g"⟩ 2 [⟨[97, 0], 0⟩, ⟨[98, 0], 65536⟩] =
      [buildRecord ⟨"p.", [], "g"⟩ ⟨[97, 0], 0⟩,
       buildRecord ⟨"p.", [], "g"⟩ ⟨[98, 0], 65536⟩] ∧
    (buildReport ⟨"p.", [], "g"⟩ 2 [⟨[97, 0], 0⟩, ⟨[98, 0], 65536⟩]).length = 2 :=
  ⟨(report_one_per_entry ⟨"p.", [], "g"⟩ 2 _ (by decide)).1,
   (report_one_per_entry ⟨"p.", [], "g"⟩ 2 _ (by decide)).2⟩

end LsfAgent

namespace LsfAgent

set_option maxHeartbeats 1600000

/-- The closed table of known status constants and their symbolic names,
in the order of the match arms of `to_status_str`. -/
def statusPairs : List (Int × String) :=
  [(LIM_OK, "LIM_OK"), (LIM_UNAVAIL, "LIM_UNAVAIL"), (LIM_LOCKEDU, "LIM_LOCKEDU"),
   (LIM_LOCKEDW, "LIM_LOCKEDW"), (LIM_BUSY, "LIM_BUSY"), (LIM_RESDOWN, "LIM_RESDOWN"),
   (LIM_UNLICENSED, "LIM_UNLICENSED"), (LIM_SBDDOWN, "LIM_SBDDOWN"),
   (LIM_LOCKEDM, "LIM_LOCKEDM"), (LIM_PEMDOWN, "LIM_PEMDOWN"),
   (LIM_EXPIRED, "LIM_EXPIRED"), (LIM_RLAUP, "LIM_RLAUP"),
   (LIM_LOCKEDU_RMS, "LIM_LOCKEDU_RMS")]

lemma tssEval : ∀ p ∈ statusPairs, to_status_str p.1 = p.2 := by decide

lemma tssInj : ∀ p ∈ statusPairs, ∀ q ∈ statusPairs, p.2 = q.2 → p.1 = q.1 := by
  decide

lemma tssNoUnknown : ∀ p ∈ statusPairs, p.2 ≠ "UNKNOWN" := by decide

lemma tss_unknown (s : Int) (h : ∀ v n, (v, n) ∈ statusPairs → s ≠ v) :
    to_status_str s = "UNKNOWN" := by
  unfold to_status_str
  rw [if_neg (h LIM_OK "LIM_OK" (by decide)),
    if_neg (h LIM_UNAVAIL "LIM_UNAVAIL" (by decide)),
    if_neg (h LIM_LOCKEDU "LIM_LOCKEDU" (by decide)),
    if_neg (h LIM_LOCKEDW "LIM_LOCKEDW" (by decide)),
    if_neg (h LIM_BUSY "LIM_BUSY" (by decide)),
    if_neg (h LIM_RESDOWN "LIM_RESDOWN" (by decide)),
    if_neg (h LIM_UNLICENSED "LIM_UNLICENSED" (by decide)),
    if_neg (h LIM_SBDDOWN "LIM_SBDDOWN" (by decide)),
    if_neg (h LIM_LOCKEDM "LIM_LOCKEDM" (by decide)),
    if_neg (h LIM_PEMDOWN "LIM_PEMDOWN" (by decide)),
    if_neg (h LIM_EXPIRED "LIM_EXPIRED" (by decide)),
    if_neg (h LIM_RLAUP "LIM_RLAUP" (by decide)),
    if_neg (h LIM_LOCKEDU_RMS "LIM_LOCKEDU_RMS" (by decide))]

lemma tss_master (s : Int) :
    (∃ p, p ∈ statusPairs ∧ s = p.1) ∨ to_status_str s = "UNKNOWN" := by
  by_cases h0 : s = LIM_OK
  · exact Or.inl ⟨(LIM_OK, "LIM_OK"), by decide, h0⟩
  by_cases h1 : s = LIM_UNAVAIL
  · exact Or.inl ⟨(LIM_UNAVAIL, "LIM_UNAVAIL"), by decide, h1⟩
  by_cases h2 : s = LIM_LOCKEDU
  · exact Or.inl ⟨(LIM_LOCKEDU, "LIM_LOCKEDU"), by decide, h2⟩
  by_cases h3 : s = LIM_LOCKEDW
  · exact Or.inl ⟨(LIM_LOCKEDW, "LIM_LOCKEDW"), by decide, h3⟩
  by_cases h4 : s = LIM_BUSY
  · exact Or.inl ⟨(LIM_BUSY, "LIM_BUSY"), by decide, h4⟩
  by_cases h5 : s = LIM_RESDOWN
  · exact Or.inl ⟨(LIM_RESDOWN, "LIM_RESDOWN"), by decide, h5⟩
  by_cases h6 : s = LIM_UNLICENSED
  · exact Or.inl ⟨(LIM_UNLICENSED, "LIM_UNLICENSED"), by decide, h6⟩
  by_cases h7 : s = LIM_SBDDOWN
  · exact Or.inl ⟨(LIM_SBDDOWN, "LIM_SBDDOWN"), by decide, h7⟩
  by_cases h8 : s = LIM_LOCKEDM
  · exact Or.inl ⟨(LIM_LOCKEDM, "LIM_LOCKEDM"), by decide, h8⟩
  by_cases h9 : s = LIM_PEMDOWN
  · exact Or.inl ⟨(LIM_PEMDOWN, "LIM_PEMDOWN"), by decide, h9⟩
  by_cases h10 : s = LIM_EXPIRED
  · exact Or.inl ⟨(LIM_EXPIRED, "LIM_EXPIRED"), by decide, h10⟩
  by_cases h11 : s = LIM_RLAUP
  · exact Or.inl ⟨(LIM_RLAUP, "LIM_RLAUP"), by decide, h11⟩
  by_cases h12 : s = LIM_LOCKEDU_RMS
  · exact Or.inl ⟨(LIM_LOCKEDU_RMS, "LIM_LOCKEDU_RMS"), by decide, h12⟩
  refine Or.inr (tss_unknown s ?_)
  intro v n hvn
  fin_cases hvn
  · exact h0
  · exact h1
  · exact h2
  · exact h3
  · exact h4
  · exact h5
  · exact h6
  · exact h7
  · exact h8
  · exact h9
  · exact h10
  · exact h11
  · exact h12

/-- C2: the status translator is total on the integers and does exact
whole-value matching: a known symbolic name is returned exactly when the
input equals the corresponding constant of the closed table, and every
value equal to none of the constants yields UNKNOWN. -/
theorem translator_exact_match (s : Int) :
    (∀ v n, (v, n) ∈ statusPairs → (to_status_str s = n ↔ s = v)) ∧
    ((∀ v n, (v, n) ∈ statusPairs → s ≠ v) → to_status_str s = "UNKNOWN") := by
  constructor
  · intro v n hvn
    constructor
    · intro h
      rcases tss_master s with ⟨p, hp, rfl⟩ | hunk
      · have he := tssEval p hp
        exact tssInj p hp (v, n) hvn (he.symm.trans h)
      · rw [h] at hunk
        exact absurd hunk (tssNoUnknown (v, n) hvn)
    · intro hsv
      rw [hsv]
      exact tssEval (v, n) hvn
  · exact tss_unknown s

/-- Witness for C2 at the concrete inputs LIM_BUSY and 3. -/
theorem translator_exact_match_witness :
    to_status_str 524288 = "LIM_BUSY" ∧ to_status_str 3 = "UNKNOWN" :=
  ⟨((translator_exact_match 524288).1 524288 "LIM_BUSY" (by decide)).mpr rfl,
   (translator_exact_match 3).2 (by intro v n hvn; fin_cases hvn <;> decide)⟩

/-- C10: the legacy locked constant written `0x80000000` wraps to the
signed value -2147483648, the translator returns LIM_LOCKEDU_RMS exactly
there, and never on a non-negative input. -/
theorem lockedu_rms_wrap :
    LIM_LOCKEDU_RMS = -2147483648 ∧
    to_status_str (-2147483648) = "LIM_LOCKEDU_RMS" ∧
    (∀ s : Int, 0 ≤ s → to_status_str s ≠ "LIM_LOCKEDU_RMS") := by
  refine ⟨by decide, by decide, ?_⟩
  intro s hs h
  rcases tss_master s with ⟨p, hp, rfl⟩ | hunk
  · have he := tssEval p hp
    have hv := tssInj p hp (LIM_LOCKEDU_RMS, "LIM_LOCKEDU_RMS") (by decide)
      (he.symm.trans h)
    rw [hv] at hs
    exact absurd hs (by decide)
  · rw [h] at hunk
    exact absurd hunk (by decide)

/-- Witness for C10 at the non-negative input 5. -/
theorem lockedu_rms_wrap_witness : to_status_str 5 ≠ "LIM_LOCKEDU_RMS" :=
  lockedu_rms_wrap.2.2 5 (by decide)

/-- C4: when the raw host identifier decodes to text, the reported name
is the prefix followed by the mapping-table value when the identifier is
a key of the table, and the prefix followed by the identifier itself when
it is not. -/
theorem resolver_mapped_name (config : Config) (hl : HostLoad) (nm : String)
    (hdec : utf8Decode (cstrBytes hl.host_name) = some nm) :
    (∀ mv, List.lookup nm config.name_mapping = some mv →
      (buildRecord config hl).name = config.prefixStr ++ mv) ∧
    (List.lookup nm config.name_mapping = none →
      (buildRecord config hl).name = config.prefixStr ++ nm) := by
  unfold buildRecord
  dsimp only
  rw [hdec]
  constructor
  · intro mv hmv
    dsimp only
    rw [hmv]
  · intro hnone
    dsimp only
    rw [hnone]

/-- Witness for C4 on the identifier "a", mapped and unmapped. -/
theorem resolver_mapped_name_witness :
    (buildRecord ⟨"m.", [("a", "x")], "g"⟩ ⟨[97, 0], 0⟩).name = "m.x" ∧
    (buildRecord ⟨"m.", [], "g"⟩ ⟨[97, 0], 0⟩).name = "m.a" :=
  ⟨((resolver_mapped_name ⟨"m.", [("a", "x")], "g"⟩ ⟨[97, 0], 0⟩ "a"
      (by decide)).1 "x" (by decide)).trans (by decide),
   ((resolver_mapped_name ⟨"m.", [], "g"⟩ ⟨[97, 0], 0⟩ "a"
      (by decide)).2 (by decide)).trans (by decide)⟩

/-- C5: the exit code is 0 when every record is PASSED and 127 as soon
as some record is FAILED, whatever and however many the failures are. -/
theorem exit_code_aggregation (infos : List StatusStorageInfo) :
    ((∀ r ∈ infos, r.status = PASSED) → exit_code infos = 0) ∧
    ((∃ r ∈ infos, r.status = FAILED) → exit_code infos = 127) := by
  constructor
  · intro h
    have hall : all_passed infos = true := by
      unfold all_passed
      rw [List.all_eq_true]
      intro r hr
      simp [h r hr]
    unfold exit_code
    rw [hall]
    rfl
  · rintro ⟨r, hr, hrf⟩
    have hne : all_passed infos ≠ true := by
      unfold all_passed
      intro hforall
      rw [List.all_eq_true] at hforall
      have hbeq := hforall r hr
      rw [hrf] at hbeq
      exact absurd hbeq (by decide)
    unfold exit_code
    cases hall : all_passed infos with
    | true => exact absurd hall hne
    | false => rfl

/-- Witness for C5: an all-passed run exits 0, a run with one failure
exits 127. -/
theorem exit_code_aggregation_witness :
    exit_code [⟨"a", 0, none, none, none⟩] = 0 ∧
    exit_code [⟨"a", 0, none, none, none⟩, ⟨"b", 2, none, none, none⟩] = 127 :=
  ⟨(exit_code_aggregation [⟨"a", 0, none, none, none⟩]).1 (by decide),
   (exit_code_aggregation [⟨"a", 0, none, none, none⟩, ⟨"b", 2, none, none, none⟩]).2
     ⟨⟨"b", 2, none, none, none⟩, by decide, by decide⟩⟩

/-- C6: a host whose raw identifier does not decode as text still gets a
record (the poll does not abort): its name is the prefix followed by the
debug representation of the raw bytes, and the mapping table is never
consulted on this path. -/
theorem resolver_decode_failure (config : Config) (hl : HostLoad)
    (hdec : utf8Decode (cstrBytes hl.host_name) = none) :
    (buildRecord config hl).name =
      config.prefixStr ++ cstrDebugRepr (cstrBytes hl.host_name) ∧
    (∀ m : List (String × String),
      buildRecord { config with name_mapping := m } hl = buildRecord config hl) ∧
    (∀ (numhosts : Int) (hosts : List HostLoad), 0 < numhosts → hl ∈ hosts →
      buildRecord config hl ∈ buildReport config numhosts hosts) := by
  refine ⟨?_, ?_, ?_⟩
  · unfold buildRecord
    dsimp only
    rw [hdec]
  · intro m
    unfold buildRecord
    dsimp only
    rw [hdec]
  · intro numhosts hosts hn hmem
    unfold buildReport
    rw [if_pos hn]
    exact List.mem_map_of_mem _ hmem

/-- Witness for C6 on the invalid byte 0xFF. -/
theorem resolver_decode_failure_witness :
    (buildRecord ⟨"m.", [("a", "x")], "g"⟩ ⟨[255, 0], 0⟩).name = "m.\"\\xff\"" ∧
    buildRecord ⟨"m.", [], "g"⟩ ⟨[255, 0], 0⟩ ∈
      buildReport ⟨"m.", [], "g"⟩ 1 [⟨[255, 0], 0⟩] :=
  ⟨((resolver_decode_failure ⟨"m.", [("a", "x")], "g"⟩ ⟨[255, 0], 0⟩
      (by decide)).1).trans (by decide),
   (resolver_decode_failure ⟨"m.", [], "g"⟩ ⟨[255, 0], 0⟩ (by decide)).2.2
     1 [⟨[255, 0], 0⟩] (by decide) (by decide)⟩

/-- C7 fails as stated: the run with zero hosts produces the synthetic
record, whose remarks is present but is the fixed unreachable message,
containing neither the numeric status code stored in the record (2) nor
any symbolic name (the name of code 2 being UNKNOWN). -/
theorem remarks_invariant_counterexample :
    buildReport ⟨"mon.", [], "grpA"⟩ 0 [] =
      [⟨"mon.*", 2, none, some "grpA", some "Unable to connect any of the LSF nodes"⟩] ∧
    to_status_str 2 = "UNKNOWN" ∧
    ¬ containsStr "Unable to connect any of the LSF nodes" "2" ∧
    ¬ containsStr "Unable to connect any of the LSF nodes" "UNKNOWN" :=
  ⟨by decide, by decide, by decide, by decide⟩

/-- C7 (amended): every per-host record of a run with a positive host
count has remarks containing both the raw numeric status code and its
symbolic name; in a run with a non-positive host count the single
record instead carries the fixed unreachable message as remarks. -/
theorem remarks_invariant_amended :
    (∀ (config : Config) (numhosts : Int) (hosts : List HostLoad)
        (r : StatusStorageInfo),
        0 < numhosts → r ∈ buildReport config numhosts hosts →
        ∃ hl, hl ∈ hosts ∧ r = buildRecord config hl ∧
          ∃ m, r.remarks = some m ∧
            containsStr m (toString hl.status) ∧
            containsStr m (to_status_str hl.status)) ∧
    (∀ (config : Config) (numhosts : Int) (hosts : List HostLoad),
        numhosts ≤ 0 →
        (buildReport config numhosts hosts).map (fun r => r.remarks) =
          [some "Unable to connect any of the LSF nodes"]) := by
  constructor
  · intro config numhosts hosts r hn hr
    unfold buildReport at hr
    rw [if_pos hn] at hr
    rcases List.mem_map.mp hr with ⟨hl, hmem, rfl⟩
    refine ⟨hl, hmem, rfl, ?_⟩
    refine ⟨"Status code: " ++ toString hl.status ++ " (" ++
      to_status_str hl.status ++ ")", buildRecord_remarks config hl, ?_, ?_⟩
    · refine ⟨"Status code: ".data,
        (" (" ++ to_status_str hl.status ++ ")").data, ?_⟩
      simp [String.data_append]
    · refine ⟨("Status code: " ++ toString hl.status ++ " (").data,
        ")".data, ?_⟩
      simp [String.data_append]
  · intro config numhosts hosts hn
    unfold buildReport synthRecord
    rw [if_neg (by omega)]
    rfl

/-- Witness for the amended C7 at a one-host run and at an empty run. -/
theorem remarks_invariant_amended_witness :
    (∃ hl, hl ∈ [(⟨[97, 0], 0⟩ : HostLoad)] ∧
        buildRecord ⟨"", [], "g"⟩ ⟨[97, 0], 0⟩ = buildRecord ⟨"", [], "g"⟩ hl ∧
        ∃ m, (buildRecord ⟨"", [], "g"⟩ ⟨[97, 0], 0⟩).remarks = some m ∧
          containsStr m (toString hl.status) ∧
          containsStr m (to_status_str hl.status)) ∧
    (buildReport ⟨"mon.", [], "grpA"⟩ 0 []).map (fun r => r.remarks) =
      [some "Unable to connect any of the LSF nodes"] :=
  ⟨remarks_invariant_amended.1 ⟨"", [], "g"⟩ 1 [⟨[97, 0], 0⟩] _
      (by decide) (by decide),
   remarks_invariant_amended.2 ⟨"mon.", [], "grpA"⟩ 0 [] (by decide)⟩

/-- C9: every record built by this core has no storage info and carries
the configured critical-group-name; at serialization an absent optional
field contributes nothing to the rendered text (no null or empty
placeholder), while present optional fields are emitted with their
camelCase keys. -/
theorem optional_fields_policy (config : Config) :
    (∀ (numhosts : Int) (hosts : List HostLoad) (r : StatusStorageInfo),
        r ∈ buildReport config numhosts hosts →
        r.storage = none ∧
        r.critical_group_name = some config.critical_group_name) ∧
    (∀ (nm : String) (st : Int),
        serializeRecord ⟨nm, st, none, none, none⟩ =
          "\x7b\"name\":" ++ jsonString nm ++ ",\"status\":" ++ toString st ++
          "\x7d") ∧
    (∀ (nm : String) (st : Int) (c r : String),
        serializeRecord ⟨nm, st, none, some c, some r⟩ =
          "\x7b\"name\":" ++ jsonString nm ++ ",\"status\":" ++ toString st ++
          ",\"criticalGroupName\":" ++ jsonString c ++
          ",\"remarks\":" ++ jsonString r ++ "\x7d") := by
  refine ⟨?_, ?_, ?_⟩
  · intro numhosts hosts r hr
    unfold buildReport at hr
    by_cases hn : numhosts > 0
    · rw [if_pos hn] at hr
      rcases List.mem_map.mp hr with ⟨hl, hmem, rfl⟩
      exact ⟨buildRecord_storage config hl, buildRecord_critical_group config hl⟩
    · rw [if_neg hn] at hr
      rcases List.mem_singleton.mp hr with rfl
      exact ⟨rfl, rfl⟩
  · intro nm st
    unfold serializeRecord
    apply String.ext
    simp [String.data_append]
  · intro nm st c r
    unfold serializeRecord
    apply String.ext
    simp [String.data_append]

/-- Witness for C9 on a one-host run and two concrete serializations. -/
theorem optional_fields_policy_witness :
    ((buildRecord ⟨"m.", [], "g"⟩ ⟨[97, 0], 0⟩).storage = none ∧
      (buildRecord ⟨"m.", [], "g"⟩ ⟨[97, 0], 0⟩).critical_group_name = some "g") ∧
    serializeRecord ⟨"n", 2, none, none, none⟩ =
      "\x7b\"name\":\"n\",\"status\":2\x7d" :=
  ⟨(optional_fields_policy ⟨"m.", [], "g"⟩).1 1 [⟨[97, 0], 0⟩] _ (by decide),
   ((optional_fields_policy ⟨"m.", [], "g"⟩).2.1 "n" 2).trans (by decide)⟩

end LsfAgent
